import Mathlib

/-!
Verification of the shawty URL-shortener core (Go) against its specification.

The development shallowly embeds:
- `generateShortID` (internal/service/url_service.go): MD5 of the URL's UTF-8
  bytes, lowercase hex, first 8 characters; `crypto/md5` and `encoding/hex`
  are embedded in full over `Nat` byte lists.
- the store (internal/store/mongo_store.go): the MongoDB collection is
  modelled as a `List URL` keyed by `_id`; `Save` / `GetByShortID` follow the
  Go code's classification of duplicate-key and no-document errors.
- the service (internal/service/url_service.go): `CreateShortURL`,
  `GetOriginalURL`, with Go error wrapping/`errors.Is` modelled explicitly.
- the HTTP handlers (internal/handler/url_handler.go) over an abstract
  service interface, mirroring `UrlServiceInterface`.
Time (`time.Now().UTC()`) is threaded as an explicit `Nat` parameter.
-/

set_option maxRecDepth 100000

/-! ## MD5 (crypto/md5) and hex encoding (encoding/hex) over byte lists -/

/-- 2^32; all 32-bit words are `Nat`s kept below this bound. -/
def M32 : Nat := 4294967296

/-- 32-bit left rotation (operands assumed < 2^32). -/
def rotl32 (x n : Nat) : Nat :=
  ((x <<< n) % M32) ||| (x >>> (32 - n))

/-- UTF-8 encoding of a single code point, as Go produces for `[]byte(s)`. -/
def utf8Bytes (n : Nat) : List Nat :=
  if n < 128 then [n]
  else if n < 2048 then [192 + n / 64, 128 + n % 64]
  else if n < 65536 then [224 + n / 4096, 128 + (n / 64) % 64, 128 + n % 64]
  else [240 + n / 262144, 128 + (n / 4096) % 64, 128 + (n / 64) % 64, 128 + n % 64]

/-- The UTF-8 bytes of a string, as in Go's `[]byte(originalURL)`. -/
def strBytes (s : String) : List Nat :=
  s.data.flatMap (fun c => utf8Bytes c.toNat)

/-- MD5 sine-derived round constants (RFC 1321). -/
def kTable : List Nat :=
  [0xd76aa478, 0xe8c7b756, 0x242070db, 0xc1bdceee,
   0xf57c0faf, 0x4787c62a, 0xa8304613, 0xfd469501,
   0x698098d8, 0x8b44f7af, 0xffff5bb1, 0x895cd7be,
   0x6b901122, 0xfd987193, 0xa679438e, 0x49b40821,
   0xf61e2562, 0xc040b340, 0x265e5a51, 0xe9b6c7aa,
   0xd62f105d, 0x02441453, 0xd8a1e681, 0xe7d3fbc8,
   0x21e1cde6, 0xc33707d6, 0xf4d50d87, 0x455a14ed,
   0xa9e3e905, 0xfcefa3f8, 0x676f02d9, 0x8d2a4c8a,
   0xfffa3942, 0x8771f681, 0x6d9d6122, 0xfde5380c,
   0xa4beea44, 0x4bdecfa9, 0xf6bb4b60, 0xbebfbc70,
   0x289b7ec6, 0xeaa127fa, 0xd4ef3085, 0x04881d05,
   0xd9d4d039, 0xe6db99e5, 0x1fa27cf8, 0xc4ac5665,
   0xf4292244, 0x432aff97, 0xab9423a7, 0xfc93a039,
   0x655b59c3, 0x8f0ccc92, 0xffeff47d, 0x85845dd1,
   0x6fa87e4f, 0xfe2ce6e0, 0xa3014314, 0x4e0811a1,
   0xf7537e82, 0xbd3af235, 0x2ad7d2bb, 0xeb86d391]

/-- MD5 per-round left-rotation amounts (RFC 1321). -/
def sTable : List Nat :=
  [7, 12, 17, 22, 7, 12, 17, 22, 7, 12, 17, 22, 7, 12, 17, 22,
   5, 9, 14, 20, 5, 9, 14, 20, 5, 9, 14, 20, 5, 9, 14, 20,
   4, 11, 16, 23, 4, 11, 16, 23, 4, 11, 16, 23, 4, 11, 16, 23,
   6, 10, 15, 21, 6, 10, 15, 21, 6, 10, 15, 21, 6, 10, 15, 21]

/-- MD5 padding: a 0x80 byte, zeros to 56 mod 64, then the bit length as a
64-bit little-endian quantity. -/
def md5Pad (msg : List Nat) : List Nat :=
  let len := msg.length
  let zeros := (120 - ((len + 1) % 64)) % 64
  let bits := (8 * len) % (M32 * M32)
  msg ++ [128] ++ List.replicate zeros 0 ++
    [bits &&& 255, (bits >>> 8) &&& 255, (bits >>> 16) &&& 255, (bits >>> 24) &&& 255,
     (bits >>> 32) &&& 255, (bits >>> 40) &&& 255, (bits >>> 48) &&& 255, (bits >>> 56) &&& 255]

/-- Group bytes into 32-bit little-endian words. -/
def bytesToWords : List Nat → List Nat
  | b0 :: b1 :: b2 :: b3 :: rest =>
      (b0 ||| (b1 <<< 8) ||| (b2 <<< 16) ||| (b3 <<< 24)) :: bytesToWords rest
  | _ => []

/-- One MD5 round applied to the running state `(a, b, c, d)`. -/
def md5Step (m : List Nat) (st : Nat × Nat × Nat × Nat) (i : Nat) : Nat × Nat × Nat × Nat :=
  let a := st.1
  let b := st.2.1
  let c := st.2.2.1
  let d := st.2.2.2
  let fg : Nat × Nat :=
    if i < 16 then ((b &&& c) ||| ((b ^^^ 4294967295) &&& d), i)
    else if i < 32 then ((d &&& b) ||| ((d ^^^ 4294967295) &&& c), (5 * i + 1) % 16)
    else if i < 48 then (b ^^^ c ^^^ d, (3 * i + 5) % 16)
    else (c ^^^ (b ||| (d ^^^ 4294967295)), (7 * i) % 16)
  let f2 := (fg.1 + a + kTable.getD i 0 + m.getD fg.2 0) % M32
  (d, (b + rotl32 f2 (sTable.getD i 0)) % M32, b, c)

/-- Process one 16-word chunk: 64 rounds, then add into the state. -/
def md5Chunk (st : Nat × Nat × Nat × Nat) (m : List Nat) : Nat × Nat × Nat × Nat :=
  let r := (List.range 64).foldl (md5Step m) st
  ((st.1 + r.1) % M32, (st.2.1 + r.2.1) % M32,
   (st.2.2.1 + r.2.2.1) % M32, (st.2.2.2 + r.2.2.2) % M32)

/-- Fold `md5Chunk` over the padded message, 16 words at a time. -/
def md5Loop (st : Nat × Nat × Nat × Nat) : List Nat → Nat × Nat × Nat × Nat
  | w0 :: w1 :: w2 :: w3 :: w4 :: w5 :: w6 :: w7 ::
    w8 :: w9 :: w10 :: w11 :: w12 :: w13 :: w14 :: w15 :: rest =>
      md5Loop (md5Chunk st
        [w0, w1, w2, w3, w4, w5, w6, w7, w8, w9, w10, w11, w12, w13, w14, w15]) rest
  | _ => st

/-- Serialize one 32-bit word to 4 little-endian bytes. -/
def w2b (w : Nat) : List Nat :=
  [w &&& 255, (w >>> 8) &&& 255, (w >>> 16) &&& 255, (w >>> 24) &&& 255]

/-- MD5 digest (16 bytes) of a byte list, as `md5.Sum` produces. -/
def md5 (msg : List Nat) : List Nat :=
  let st := md5Loop (0x67452301, 0xefcdab89, 0x98badcfe, 0x10325476)
    (bytesToWords (md5Pad msg))
  w2b st.1 ++ w2b st.2.1 ++ w2b st.2.2.1 ++ w2b st.2.2.2

/-- Lowercase hex digit, as `encoding/hex` uses ("0123456789abcdef"). -/
def hexDig (n : Nat) : Char :=
  if n < 10 then Char.ofNat (48 + n) else Char.ofNat (87 + n)

/-- Lowercase hex encoding of a byte list (`hex.EncodeToString`). -/
def hexEncode (bytes : List Nat) : List Char :=
  bytes.flatMap (fun b => [hexDig (b / 16), hexDig (b % 16)])

/-- generateShortID from internal/service/url_service.go: MD5 of the URL's
UTF-8 bytes, lowercase hex, first 8 characters (`hash[:8]`). -/
def generateShortID (originalURL : String) : String :=
  ⟨(hexEncode (md5 (strBytes originalURL))).take 8⟩

/-! ## Go errors: messages, wrapping, and errors.Is -/

/-- A Go error value: either a leaf (`errors.New`) or a wrap produced by
`fmt.Errorf` with a single `%w` verb, whose message is
`pre ++ inner.Error() ++ post`. -/
inductive GoError where
  | base (msg : String)
  | wrap (pre : String) (inner : GoError) (post : String)
deriving Repr, DecidableEq

/-- err.Error(): the rendered message of a Go error. -/
def errMsg : GoError → String
  | .base m => m
  | .wrap pre inner post => pre ++ errMsg inner ++ post

/-- errors.Is: the target equals the error or some error in its unwrap chain. -/
def errIs : GoError → GoError → Bool
  | .base m, t => GoError.base m == t
  | .wrap p i q, t => (GoError.wrap p i q == t) || errIs i t

/-- ErrHashCollision from internal/service/url_service.go. -/
def ErrHashCollision : GoError := .base "hash collision detected"

/-- Modelled from the spec: `store.ErrDuplicateShortID` is referenced by the
service (url_service.go line 68) but its definition in the store package is
not among the provided sources; per spec section 4.1 it is the store's
duplicate sentinel, modelled as a store-level leaf error. Note that Save
(mongo_store.go lines 71-73) wraps the MongoDB driver's own error, never this
sentinel, so — whatever its definition — it is a package-level value distinct
from every error in Save's unwrap chain, and the service's
`errors.Is(err, store.ErrDuplicateShortID)` test is always false. -/
def ErrDuplicateShortID : GoError := .base "short ID already exists"

/-- mongo.ErrNoDocuments from the MongoDB driver. -/
def errNoDocuments : GoError := .base "mongo: no documents in result"

/-- The duplicate-key error produced by the MongoDB driver's `InsertOne`
(recognized by `mongo.IsDuplicateKeyError`): a driver-level E11000 write
error, distinct from any store-package sentinel. -/
def mongoDuplicateKeyErr : GoError :=
  .base "write exception: write errors: [E11000 duplicate key error]"

/-! ## Data model (internal/domain) and store (internal/store/mongo_store.go) -/

/-- URL record from internal/domain: `_id`, original URL, short URL, creation
date. The creation date (a `time.Time` in UTC) is modelled as seconds since
the Unix epoch. -/
structure URL where
  id : String
  originalUrl : String
  shortUrl : String
  creationDate : Nat
deriving Repr, DecidableEq

/-- Save from internal/store/mongo_store.go. The MongoDB collection is a list
of records keyed by `_id`; `InsertOne` fails with a duplicate-key error
exactly when a record with the same `_id` exists. On that failure Save
returns `fmt.Errorf("short URL '%s' already exists: %w", urlEntry.ID, err)`
(lines 71-73), wrapping the driver's error `err` itself — not the store
sentinel `ErrDuplicateShortID`. -/
def Save (store : List URL) (urlEntry : URL) : Except GoError (List URL) :=
  match store.find? (fun r => r.id == urlEntry.id) with
  | some _ => .error (.wrap ("short URL '" ++ urlEntry.id ++ "' already exists: ")
      mongoDuplicateKeyErr "")
  | none => .ok (store ++ [urlEntry])

/-- GetByShortID from internal/store/mongo_store.go: `FindOne` on `_id`;
a miss is wrapped as `"URL with ID '<id>' not found: %w"` around
`mongo.ErrNoDocuments`. -/
def GetByShortID (store : List URL) (shortID : String) : Except GoError URL :=
  match store.find? (fun r => r.id == shortID) with
  | some url => .ok url
  | none => .error (.wrap ("URL with ID '" ++ shortID ++ "' not found: ")
      errNoDocuments "")

/-! ## Service (internal/service/url_service.go) -/

/-- CreateShortURL from internal/service/url_service.go. `now` stands for
`time.Now().UTC()`. Returns the updated store together with the Go result. -/
def CreateShortURL (store : List URL) (now : Nat) (originalURL : String) :
    List URL × Except GoError URL :=
  if originalURL == "" then
    (store, .error (.base "original URL cannot be empty"))
  else
    let shortID := generateShortID originalURL
    let urlToSave : URL :=
      { id := shortID, originalUrl := originalURL, shortUrl := shortID, creationDate := now }
    match Save store urlToSave with
    | .ok store2 => (store2, .ok urlToSave)
    | .error err =>
      if errIs err ErrDuplicateShortID then
        match GetByShortID store shortID with
        | .ok existingURL =>
          if existingURL.originalUrl == originalURL then
            (store, .ok existingURL)
          else
            (store, .error (.wrap "" ErrHashCollision
              (": short ID '" ++ shortID ++ "' generated for a different original URL (submitted: '"
                ++ originalURL ++ "', existing: '" ++ existingURL.originalUrl ++ "')")))
        | .error getErr =>
          (store, .error (.wrap ("error retrieving existing URL for short ID '" ++ shortID
            ++ "' after duplicate detection: ") getErr ""))
      else
        (store, .error (.wrap "failed to save URL: " err ""))

/-- GetOriginalURL from internal/service/url_service.go. -/
def GetOriginalURL (store : List URL) (shortID : String) : Except GoError String :=
  if shortID == "" then
    .error (.base "short ID cannot be empty")
  else
    match GetByShortID store shortID with
    | .ok url => .ok url.originalUrl
    | .error e => .error e

/-! ## String helpers (strings.Contains, strings.HasPrefix, strings.TrimPrefix) -/

/-- Whether the second character list is an initial segment of the first. -/
def charsStartWith : List Char → List Char → Bool
  | _, [] => true
  | [], _ :: _ => false
  | c :: cs, p :: ps => c == p && charsStartWith cs ps

/-- Whether the second character list occurs contiguously in the first. -/
def charsContain : List Char → List Char → Bool
  | [], ps => ps.isEmpty
  | c :: cs, ps => charsStartWith (c :: cs) ps || charsContain cs ps

/-- strings.Contains at character level. -/
def strContains (s pat : String) : Bool :=
  charsContain s.data pat.data

/-- strings.HasPrefix at character level. -/
def strStartsWith (s pat : String) : Bool :=
  charsStartWith s.data pat.data

/-- strings.TrimPrefix: drop `pat` from the start of `s` when present. -/
def strTrimHead (s pat : String) : String :=
  if strStartsWith s pat then ⟨s.data.drop pat.data.length⟩ else s

/-! ## RFC3339 formatting of a UTC timestamp (time.Time.Format(time.RFC3339)) -/

/-- Decimal rendering zero-padded to width 2. -/
def pad2 (n : Nat) : String :=
  if n < 10 then "0" ++ toString n else toString n

/-- Decimal rendering zero-padded to width 4. -/
def pad4 (n : Nat) : String :=
  if n < 10 then "000" ++ toString n
  else if n < 100 then "00" ++ toString n
  else if n < 1000 then "0" ++ toString n
  else toString n

/-- Civil date (year, month, day) from days since 1970-01-01, by the standard
era decomposition of the proleptic Gregorian calendar. -/
def civilFromDays (z : Nat) : Nat × Nat × Nat :=
  let z2 := z + 719468
  let era := z2 / 146097
  let doe := z2 % 146097
  let yoe := (doe - doe / 1460 + doe / 36524 - doe / 146096) / 365
  let y := yoe + era * 400
  let doy := doe - (365 * yoe + yoe / 4 - yoe / 100)
  let mp := (5 * doy + 2) / 153
  let d := doy - (153 * mp + 2) / 5 + 1
  let m := if mp < 10 then mp + 3 else mp - 9
  (if m ≤ 2 then y + 1 else y, m, d)

/-- RFC3339 rendering of a UTC timestamp given as seconds since the Unix
epoch: `YYYY-MM-DDTHH:MM:SSZ`, as Go's `Format(time.RFC3339)` prints a UTC
`time.Time`. -/
def rfc3339UTC (t : Nat) : String :=
  let days := t / 86400
  let secs := t % 86400
  let ymd := civilFromDays days
  pad4 ymd.1 ++ "-" ++ pad2 ymd.2.1 ++ "-" ++ pad2 ymd.2.2 ++ "T" ++
    pad2 (secs / 3600) ++ ":" ++ pad2 ((secs % 3600) / 60) ++ ":" ++ pad2 (secs % 60) ++ "Z"

/-! ## HTTP facade (internal/handler/url_handler.go) -/

instance {ε α : Type} [DecidableEq ε] [DecidableEq α] : DecidableEq (Except ε α) := fun a b =>
  match a, b with
  | .ok x, .ok y => if h : x = y then isTrue (by rw [h]) else isFalse (by simp [h])
  | .error x, .error y => if h : x = y then isTrue (by rw [h]) else isFalse (by simp [h])
  | .ok _, .error _ => isFalse (by simp)
  | .error _, .ok _ => isFalse (by simp)

/-- Inbound HTTP request, with the JSON body already decoded: `body` is the
outcome of `json.NewDecoder(r.Body).Decode(&req)` — `.error msg` a decode
failure with its message, `.ok u` a decoded `url` field value (missing field
decodes to the empty string, as in Go). -/
structure HttpRequest where
  method : String
  path : String
  host : String
  tls : Bool
  body : Except String String
deriving Repr, DecidableEq

/-- Body of the JSON 201 response (`ShortenURLResponse` in the handler). -/
structure ShortenURLResponse where
  shortURL : String
  originalURL : String
  creationDate : String
deriving Repr, DecidableEq

/-- Response body payload: plain text (`http.Error` / `fmt.Fprintf`), the
shorten JSON object, or empty. -/
inductive HttpBody where
  | text (msg : String)
  | json (r : ShortenURLResponse)
  | empty
deriving Repr, DecidableEq

/-- Outbound HTTP response: status code, response headers, the Location
header (set by `http.Redirect`), and the body. -/
structure HttpResponse where
  status : Nat
  headers : List (String × String) := []
  location : Option String := none
  body : HttpBody := .empty
deriving Repr, DecidableEq

/-- UrlServiceInterface from internal/service/url_service.go, as consumed by
the handler. `σ` is the service's backing state; `createShortURL` takes the
current time (the service reads `time.Now()` internally). -/
structure UrlServiceIface (σ : Type) where
  createShortURL : σ → Nat → String → σ × Except GoError URL
  getOriginalURL : σ → String → Except GoError String

/-- The concrete service wired in cmd startup: `UrlService` over the Mongo
store modelled as a record list. -/
def urlService : UrlServiceIface (List URL) where
  createShortURL := CreateShortURL
  getOriginalURL := GetOriginalURL

/-- homeHandler from internal/handler/url_handler.go: a banner on exactly
"/", `http.NotFound` otherwise; the method is never inspected. -/
def homeHandler (r : HttpRequest) : HttpResponse :=
  if r.path != "/" then { status := 404, body := .text "404 page not found" }
  else { status := 200, body := .text "Hello from Shawty URL Shortener!" }

/-- shortenURLHandler from internal/handler/url_handler.go, parameterized by
the service as in the Go code. Returns the service state after the call
together with the response. -/
def shortenURLHandler {σ : Type} (svc : UrlServiceIface σ) (st : σ) (now : Nat)
    (r : HttpRequest) : σ × HttpResponse :=
  if r.method != "POST" then
    (st, { status := 405, body := .text "Only POST method is allowed" })
  else
    match r.body with
    | .error msg =>
      (st, { status := 400, body := .text ("Invalid request body: " ++ msg) })
    | .ok url =>
      if url == "" then
        (st, { status := 400, body := .text "URL field is missing or empty in request body" })
      else
        match svc.createShortURL st now url with
        | (st2, .error err) =>
          if errIs err ErrHashCollision then
            (st2, { status := 409, body := .text "Failed to create short URL due to a hash collision. Please try again or modify the URL slightly." })
          else if strContains (errMsg err) "duplicate" || strContains (errMsg err) "already exists" then
            (st2, { status := 409, body := .text "This URL may have already been shortened or a conflict occurred." })
          else
            (st2, { status := 500, body := .text "Failed to create short URL" })
        | (st2, .ok createdURL) =>
          let scheme := if r.tls then "https" else "http"
          let fullShortURL := scheme ++ "://" ++ r.host ++ "/r/" ++ createdURL.shortUrl
          (st2, { status := 201,
                  headers := [("Content-Type", "application/json")],
                  body := .json { shortURL := fullShortURL,
                                  originalURL := createdURL.originalUrl,
                                  creationDate := rfc3339UTC createdURL.creationDate } })

/-- redirectURLHandler from internal/handler/url_handler.go. Lookups do not
mutate the store, so only the response is returned. -/
def redirectURLHandler {σ : Type} (svc : UrlServiceIface σ) (st : σ)
    (r : HttpRequest) : HttpResponse :=
  if r.method != "GET" then
    { status := 405, body := .text "Only GET method is allowed for redirection" }
  else
    let shortID := strTrimHead r.path "/r/"
    if shortID == "" then
      { status := 400, body := .text "Short URL ID is missing in the path" }
    else
      match svc.getOriginalURL st shortID with
      | .error err =>
        if strContains (errMsg err) "not found" then
          { status := 404, body := .text ("Short URL '" ++ shortID ++ "' not found") }
        else
          { status := 500, body := .text "Error retrieving URL" }
      | .ok originalURL =>
        let red :=
          if !(strStartsWith originalURL "http://") && !(strStartsWith originalURL "https://")
          then "http://" ++ originalURL else originalURL
        { status := 302, location := some red }

/-- Modelled from the spec: the CORS middleware of the layered main entry
point wraps every handler; that main file is not among the provided sources
(only the superseded flat main.go is). Per spec section 4.3.3 it sets three
fixed headers on every response and short-circuits OPTIONS with 200 and an
empty body. -/
def corsHeaders : List (String × String) :=
  [("Access-Control-Allow-Origin", "http://localhost:3000"),
   ("Access-Control-Allow-Methods", "POST, GET, OPTIONS, PUT, DELETE"),
   ("Access-Control-Allow-Headers", "Accept, Content-Type, Content-Length, Accept-Encoding, X-CSRF-Token, Authorization")]

/-- Modelled from the spec: see `corsHeaders`. The wrapped handler is an
arbitrary request-to-response function. -/
def enableCORS (next : HttpRequest → HttpResponse) (r : HttpRequest) : HttpResponse :=
  if r.method == "OPTIONS" then
    { status := 200, headers := corsHeaders, body := .empty }
  else
    let resp := next r
    { resp with headers := corsHeaders ++ resp.headers }

/-! ## Record and store invariants (spec section 3) -/

/-- Record invariant: the id is derived from the original URL, equals the
short URL, and the original URL is non-empty. -/
def RecordWF (r : URL) : Prop :=
  r.id = generateShortID r.originalUrl ∧ r.shortUrl = r.id ∧ r.originalUrl ≠ ""

/-- Store invariant: every record is well-formed and ids are unique. -/
def StoreWF (store : List URL) : Prop :=
  (∀ r ∈ store, RecordWF r) ∧ store.Pairwise (fun a b => a.id ≠ b.id)

/-! ## Lemmas about the identifier derivation -/

/-- Character class of lowercase hex digits, the alphabet of `hexEncode`. -/
def isHexChar (c : Char) : Bool :=
  (('0' ≤ c) && (c ≤ '9')) || (('a' ≤ c) && (c ≤ 'f'))

theorem hexEncode_length (l : List Nat) : (hexEncode l).length = 2 * l.length := by
  induction l with
  | nil => simp [hexEncode]
  | cons b bs ih =>
    simp [hexEncode] at ih ⊢
    omega

theorem md5_length (msg : List Nat) : (md5 msg).length = 16 := by
  simp [md5, w2b]

theorem w2b_lt (w : Nat) : ∀ b ∈ w2b w, b < 256 := by
  intro b hb
  simp only [w2b, List.mem_cons, List.not_mem_nil, or_false] at hb
  rcases hb with h | h | h | h <;>
    (subst h; exact Nat.lt_succ_of_le Nat.and_le_right)

theorem md5_bytes_lt (msg : List Nat) : ∀ b ∈ md5 msg, b < 256 := by
  intro b hb
  simp only [md5, List.mem_append] at hb
  rcases hb with ((h | h) | h) | h <;> exact w2b_lt _ b h

theorem isHexChar_hexDig {n : Nat} (h : n < 16) : isHexChar (hexDig n) = true := by
  interval_cases n <;> decide

theorem generateShortID_length (s : String) : (generateShortID s).length = 8 := by
  have h1 : (hexEncode (md5 (strBytes s))).length = 32 := by
    rw [hexEncode_length, md5_length]
  simp [generateShortID, String.length, List.length_take, h1]

theorem generateShortID_ne_empty (s : String) : generateShortID s ≠ "" := by
  intro h
  have := generateShortID_length s
  rw [h] at this
  simp [String.length] at this

theorem generateShortID_hex (s : String) :
    (generateShortID s).data.all isHexChar = true := by
  rw [List.all_eq_true]
  intro c hc
  have hsub : c ∈ hexEncode (md5 (strBytes s)) := List.take_subset _ _ hc
  simp only [hexEncode, List.mem_flatMap, List.mem_cons, List.not_mem_nil, or_false] at hsub
  obtain ⟨b, hb, hcb⟩ := hsub
  have hblt : b < 256 := md5_bytes_lt _ b hb
  rcases hcb with h | h <;> subst h
  · exact isHexChar_hexDig (by omega)
  · exact isHexChar_hexDig (Nat.mod_lt _ (by omega))

/-! ## Lemmas about the store and the service -/

theorem save_ok {store store2 : List URL} {e : URL}
    (h : Save store e = .ok store2) :
    store.find? (fun r => r.id == e.id) = none ∧ store2 = store ++ [e] := by
  unfold Save at h
  split at h <;> simp_all

theorem save_error {store : List URL} {e : URL} {err : GoError}
    (h : Save store e = .error err) :
    (∃ ex, store.find? (fun r => r.id == e.id) = some ex) ∧
      err = .wrap ("short URL '" ++ e.id ++ "' already exists: ") mongoDuplicateKeyErr "" := by
  unfold Save at h
  split at h <;> simp_all

/-- Save's duplicate error wraps the driver's error, so errors.Is never
matches the store sentinel: the service's reconciliation branch is dead. -/
theorem errIs_saveDup_false (p q : String) :
    errIs (.wrap p mongoDuplicateKeyErr q) ErrDuplicateShortID = false := by
  simp [errIs, mongoDuplicateKeyErr, ErrDuplicateShortID]

/-- A creation succeeds only on the fresh-insert path (the reconciliation
branch is unreachable, see `errIs_saveDup_false`); the returned record is the
candidate, now the store's match for the derived id, bearing the submitted
URL verbatim. -/
theorem create_ok {store store2 : List URL} {now : Nat} {s : String} {r : URL}
    (h : CreateShortURL store now s = (store2, .ok r)) :
    s ≠ "" ∧ r.originalUrl = s ∧ r.id = generateShortID s ∧
      store2.find? (fun x => x.id == generateShortID s) = some r := by
  simp only [CreateShortURL] at h
  split at h
  · simp at h
  next hs =>
    have hsne : s ≠ "" := by
      intro hcon
      exact hs (by simp [hcon])
    refine ⟨hsne, ?_⟩
    split at h
    next store3 hsave =>
      obtain ⟨hnone, hstore3⟩ := save_ok hsave
      simp only [Prod.mk.injEq, Except.ok.injEq] at h
      obtain ⟨h2, h3⟩ := h
      subst h3
      refine ⟨rfl, rfl, ?_⟩
      rw [← h2, hstore3, List.find?_append]
      simp only at hnone
      rw [hnone]
      simp
    next err hsave =>
      obtain ⟨_, herr⟩ := save_error hsave
      subst herr
      rw [if_neg (by simp [errIs_saveDup_false])] at h
      simp at h

/-- Round-trip: looking up the id of a record returned by a successful
creation yields the submitted URL. -/
theorem get_after_create {store store2 : List URL} {now : Nat} {s : String} {r : URL}
    (h : CreateShortURL store now s = (store2, .ok r)) :
    GetOriginalURL store2 r.id = .ok s := by
  obtain ⟨_, ho, hid, hfind⟩ := create_ok h
  have hidne : r.id ≠ "" := by rw [hid]; exact generateShortID_ne_empty s
  simp only [GetOriginalURL]
  rw [if_neg (by simp [hidne])]
  have hget : GetByShortID store2 r.id = .ok r := by
    unfold GetByShortID
    rw [hid, hfind]
  rw [hget]
  simp only []
  rw [ho]

/-! ## Lemmas about the string helpers -/

theorem charsStartWith_append (p b : List Char) : charsStartWith (p ++ b) p = true := by
  induction p with
  | nil => cases b <;> simp [charsStartWith]
  | cons c cs ih => simp [charsStartWith, ih]

theorem charsContain_nilPat (l : List Char) : charsContain l [] = true := by
  cases l <;> simp [charsContain, charsStartWith]

theorem charsContain_here (p b : List Char) : charsContain (p ++ b) p = true := by
  cases p with
  | nil => exact charsContain_nilPat b
  | cons c cs =>
    show (charsStartWith ((c :: cs) ++ b) (c :: cs) || charsContain (cs ++ b) (c :: cs)) = true
    rw [charsStartWith_append, Bool.true_or]

theorem charsContain_right (a rest p : List Char) (h : charsContain rest p = true) :
    charsContain (a ++ rest) p = true := by
  induction a with
  | nil => simpa using h
  | cons c cs ih =>
    show (charsStartWith ((c :: cs) ++ rest) p || charsContain (cs ++ rest) p) = true
    rw [ih, Bool.or_true]

theorem strTrimHead_append (id : String) : strTrimHead ("/r/" ++ id) "/r/" = id := by
  have hstart : strStartsWith ("/r/" ++ id) "/r/" = true := by
    simp only [strStartsWith, String.data_append]
    exact charsStartWith_append _ _
  simp only [strTrimHead, hstart, if_true, String.data_append]
  have : ("/r/".data).length = 3 := by decide
  rw [this]
  have hdrop : List.drop 3 ("/r/".data ++ id.data) = id.data :=
    List.drop_left "/r/".data id.data
  rw [hdrop]

/-! ## Invariant preservation -/

theorem save_wf {store store2 : List URL} {e : URL}
    (hwf : StoreWF store) (hrec : RecordWF e)
    (h : Save store e = .ok store2) : StoreWF store2 := by
  obtain ⟨hnone, hstore2⟩ := save_ok h
  subst hstore2
  obtain ⟨hall, hpair⟩ := hwf
  constructor
  · intro r hr
    rcases List.mem_append.mp hr with hl | hr2
    · exact hall r hl
    · simp only [List.mem_singleton] at hr2
      subst hr2; exact hrec
  · rw [List.pairwise_append]
    refine ⟨hpair, by simp, ?_⟩
    intro a ha b hb
    simp only [List.mem_singleton] at hb
    subst hb
    have := List.find?_eq_none.mp hnone a ha
    simpa using this

theorem getByShortID_ok {store : List URL} {sid : String} {u : URL}
    (h : GetByShortID store sid = .ok u) :
    store.find? (fun r => r.id == sid) = some u := by
  unfold GetByShortID at h
  split at h <;> simp_all

theorem create_wf {store store2 : List URL} {now : Nat} {s : String}
    {res : Except GoError URL}
    (hwf : StoreWF store) (h : CreateShortURL store now s = (store2, res)) :
    StoreWF store2 ∧ ∀ r, res = .ok r → RecordWF r := by
  simp only [CreateShortURL] at h
  split at h
  · injection h with h1 h2
    subst h1; subst h2
    exact ⟨hwf, fun r hr => nomatch hr⟩
  next hs =>
    have hsne : s ≠ "" := fun hcon => hs (by simp [hcon])
    split at h
    next store3 hsave =>
      injection h with h1 h2
      subst h1; subst h2
      have hrec : RecordWF
          { id := generateShortID s, originalUrl := s, shortUrl := generateShortID s,
            creationDate := now } := ⟨rfl, rfl, hsne⟩
      refine ⟨save_wf hwf hrec hsave, fun r hr => ?_⟩
      injection hr with hr
      rw [← hr]; exact hrec
    next err hsave =>
      split at h
      · split at h
        next u hu =>
          split at h
          · injection h with h1 h2
            subst h1; subst h2
            refine ⟨hwf, fun r hr => ?_⟩
            injection hr with hr
            rw [← hr]
            exact hwf.1 u (List.mem_of_find?_eq_some (getByShortID_ok hu))
          · injection h with h1 h2
            subst h1; subst h2
            exact ⟨hwf, fun r hr => nomatch hr⟩
        next hu =>
          injection h with h1 h2
          subst h1; subst h2
          exact ⟨hwf, fun r hr => nomatch hr⟩
      · injection h with h1 h2
        subst h1; subst h2
        exact ⟨hwf, fun r hr => nomatch hr⟩

/-! ## Claims -/

/-- C3: for every string, the derivation is deterministic (trivially equal to
itself), total, 8 characters long, all lowercase hex; and the derived id of
"https://www.google.com" is "8ffdefbd". -/
theorem claim_C3_derivation :
    (∀ s : String, generateShortID s = generateShortID s ∧
      (generateShortID s).length = 8 ∧
      (generateShortID s).data.all isHexChar = true) ∧
    generateShortID "https://www.google.com" = "8ffdefbd" := by
  refine ⟨fun s => ⟨rfl, generateShortID_length s, generateShortID_hex s⟩, ?_⟩
  decide

/-- C1: the claim fails on the code. Save (mongo_store.go lines 71-73) wraps
the MongoDB driver's duplicate-key error, never the store sentinel, so the
service's errors.Is check (url_service.go line 68) is false and the
reconciliation branch is unreachable: the first creation of "a" succeeds, but
resubmitting "a" errors with the generic "failed to save URL" wrap instead of
returning the existing record. -/
theorem claim_C1_resubmission_code_bug :
    CreateShortURL [] 0 "a"
      = ([⟨"0cc175b9", "a", "0cc175b9", 0⟩], .ok ⟨"0cc175b9", "a", "0cc175b9", 0⟩) ∧
    CreateShortURL [⟨"0cc175b9", "a", "0cc175b9", 0⟩] 1 "a"
      = ([⟨"0cc175b9", "a", "0cc175b9", 0⟩],
         .error (.wrap "failed to save URL: "
           (.wrap "short URL '0cc175b9' already exists: " mongoDuplicateKeyErr "") "")) := by
  decide

/-- C2: the claim fails on the code, for the same reason as C1. "25302" and
"82945" derive the same id 7b763dcb; after the first is stored, submitting
the second does fail and does leave the store unchanged, but with the generic
"failed to save URL" wrap: errors.Is does not recognize it as
ErrHashCollision and its message does not carry the submitted URL, so the
promised diagnostic payload with both URLs never exists. -/
theorem claim_C2_collision_code_bug :
    CreateShortURL [] 0 "25302"
      = ([⟨"7b763dcb", "25302", "7b763dcb", 0⟩], .ok ⟨"7b763dcb", "25302", "7b763dcb", 0⟩) ∧
    generateShortID "25302" = generateShortID "82945" ∧
    CreateShortURL [⟨"7b763dcb", "25302", "7b763dcb", 0⟩] 1 "82945"
      = ([⟨"7b763dcb", "25302", "7b763dcb", 0⟩],
         .error (.wrap "failed to save URL: "
           (.wrap "short URL '7b763dcb' already exists: " mongoDuplicateKeyErr "") "")) ∧
    errIs (.wrap "failed to save URL: "
      (.wrap "short URL '7b763dcb' already exists: " mongoDuplicateKeyErr "") "")
      ErrHashCollision = false ∧
    strContains (errMsg (.wrap "failed to save URL: "
      (.wrap "short URL '7b763dcb' already exists: " mongoDuplicateKeyErr "") ""))
      "82945" = false := by
  decide

/-- C4: a successful creation's record round-trips — looking up its id
returns exactly the submitted URL. -/
theorem claim_C4_roundtrip :
    ∀ (store store2 : List URL) (now : Nat) (s : String) (r : URL),
      CreateShortURL store now s = (store2, .ok r) →
      GetOriginalURL store2 r.id = .ok s :=
  fun _ _ _ _ _ h => get_after_create h

theorem claim_C4_witness :
    GetOriginalURL [⟨"0cc175b9", "a", "0cc175b9", 3⟩] "0cc175b9" = .ok "a" :=
  claim_C4_roundtrip [] _ 3 "a" ⟨"0cc175b9", "a", "0cc175b9", 3⟩ (by decide)

/-- C8: creation preserves the store invariant (all records derived,
id = short_url, non-empty original URL, unique ids) and every record it
returns satisfies the record invariant; a successful Save of a well-formed
record likewise preserves the store invariant. -/
theorem claim_C8_invariants :
    (∀ (store store2 : List URL) (now : Nat) (s : String) (res : Except GoError URL),
       StoreWF store → CreateShortURL store now s = (store2, res) →
       StoreWF store2 ∧ ∀ r, res = .ok r → RecordWF r) ∧
    (∀ (store store2 : List URL) (e : URL),
       StoreWF store → RecordWF e → Save store e = .ok store2 → StoreWF store2) :=
  ⟨fun _ _ _ _ _ hwf h => create_wf hwf h,
   fun _ _ _ hwf hrec h => save_wf hwf hrec h⟩

theorem claim_C8_witness :
    StoreWF [⟨"0cc175b9", "a", "0cc175b9", 0⟩] :=
  (claim_C8_invariants.1 [] [⟨"0cc175b9", "a", "0cc175b9", 0⟩] 0 "a"
    (.ok ⟨"0cc175b9", "a", "0cc175b9", 0⟩)
    ⟨fun r hr => absurd hr (List.not_mem_nil r), List.Pairwise.nil⟩ (by decide)).1

/-- C9: the CORS filter puts the three fixed headers on every response and
short-circuits OPTIONS requests with 200 and an empty body. -/
theorem claim_C9_cors :
    ∀ (next : HttpRequest → HttpResponse) (r : HttpRequest),
      (∀ h ∈ corsHeaders, h ∈ (enableCORS next r).headers) ∧
      (r.method = "OPTIONS" →
        enableCORS next r = { status := 200, headers := corsHeaders, body := .empty }) := by
  intro next r
  constructor
  · intro h hh
    by_cases hm : r.method == "OPTIONS" <;> simp [enableCORS, hm, hh]
  · intro hopt
    simp [enableCORS, hopt]

theorem claim_C9_witness :
    (("Access-Control-Allow-Origin", "http://localhost:3000") ∈
        (enableCORS (fun _ => { status := 200 })
          ⟨"OPTIONS", "/", "h", false, .ok ""⟩).headers) ∧
      enableCORS (fun _ => { status := 200 }) ⟨"OPTIONS", "/", "h", false, .ok ""⟩ =
        { status := 200, headers := corsHeaders, body := .empty } :=
  ⟨(claim_C9_cors _ _).1 _ (by decide), (claim_C9_cors _ _).2 rfl⟩

/-- C10: the home handler answers 200 with the banner for path "/" under any
HTTP method — it inspects only the path. -/
theorem claim_C10_home_ignores_method :
    ∀ (method host : String) (tls : Bool) (body : Except String String),
      homeHandler ⟨method, "/", host, tls, body⟩ =
        { status := 200, body := .text "Hello from Shawty URL Shortener!" } := by
  intro method host tls body
  simp [homeHandler]

/-! ## Further containment lemmas for the handler proofs -/

theorem charsStartWith_extend (l p b : List Char) (h : charsStartWith l p = true) :
    charsStartWith (l ++ b) p = true := by
  induction l generalizing p with
  | nil =>
    cases p with
    | nil => exact charsStartWith_append [] b
    | cons q qs => simp [charsStartWith] at h
  | cons c cs ih =>
    cases p with
    | nil => rfl
    | cons q qs =>
      simp only [charsStartWith, Bool.and_eq_true] at h
      show (c == q && charsStartWith (cs ++ b) qs) = true
      simp [h.1, ih qs h.2]

theorem charsContain_left (a b p : List Char) (h : charsContain a p = true) :
    charsContain (a ++ b) p = true := by
  induction a with
  | nil =>
    simp only [charsContain, List.isEmpty_iff] at h
    subst h
    exact charsContain_nilPat (([] : List Char) ++ b)
  | cons c cs ih =>
    simp only [charsContain, Bool.or_eq_true] at h
    show (charsStartWith ((c :: cs) ++ b) p || charsContain (cs ++ b) p) = true
    rcases h with h | h
    · rw [charsStartWith_extend _ _ _ h, Bool.true_or]
    · rw [ih h, Bool.or_true]

/-! ## Handler claims -/

/-- C5: a POST to /shorten whose body decodes to a non-empty URL and whose
service call succeeds yields 201 with a JSON body whose short URL is
scheme://host/r/id (scheme https exactly under TLS, host taken verbatim),
the record's original URL, and its creation date rendered as RFC3339. -/
theorem claim_C5_shorten_success :
    ∀ {σ : Type} (svc : UrlServiceIface σ) (st st2 : σ) (now : Nat) (r : HttpRequest)
      (rec : URL) (u : String),
      r.method = "POST" → r.body = .ok u → u ≠ "" →
      svc.createShortURL st now u = (st2, .ok rec) →
      rec.shortUrl = rec.id →
      shortenURLHandler svc st now r =
        (st2, { status := 201, headers := [("Content-Type", "application/json")],
                body := .json {
                  shortURL := (if r.tls then "https" else "http") ++ "://" ++ r.host
                    ++ "/r/" ++ rec.id,
                  originalURL := rec.originalUrl,
                  creationDate := rfc3339UTC rec.creationDate } }) := by
  intro σ svc st st2 now r rec u hm hb hu hsvc hsh
  obtain ⟨m, p, host, tls, body⟩ := r
  subst hm; subst hb
  simp [shortenURLHandler, hu, hsvc, hsh]

theorem claim_C5_witness :
    shortenURLHandler
        (⟨fun s _ _ => (s, .ok ⟨"abcdabcd", "http://x.com", "abcdabcd", 0⟩),
          fun _ _ => .error (.base "nope")⟩ : UrlServiceIface Unit)
        () 0 ⟨"POST", "/shorten", "h", false, .ok "http://x.com"⟩ =
      ((), { status := 201, headers := [("Content-Type", "application/json")],
             body := .json { shortURL := "http://h/r/abcdabcd",
                             originalURL := "http://x.com",
                             creationDate := rfc3339UTC 0 } }) :=
  claim_C5_shorten_success _ () () 0 _ ⟨"abcdabcd", "http://x.com", "abcdabcd", 0⟩
    "http://x.com" rfl rfl (by decide) rfl rfl

/-- C6: /shorten status mapping — non-POST gives 405; a body that fails
decoding gives 400; an empty url gives 400 with the service state untouched;
a service error recognized as ErrHashCollision gives 409; any other service
error whose text contains a duplicate/already-exists marker gives 409; every
other service error gives 500. -/
theorem claim_C6_shorten_status_mapping :
    ∀ {σ : Type} (svc : UrlServiceIface σ) (st : σ) (now : Nat),
      (∀ r : HttpRequest, r.method ≠ "POST" →
        shortenURLHandler svc st now r =
          (st, { status := 405, body := .text "Only POST method is allowed" })) ∧
      (∀ (r : HttpRequest) (m : String), r.method = "POST" → r.body = .error m →
        shortenURLHandler svc st now r =
          (st, { status := 400, body := .text ("Invalid request body: " ++ m) })) ∧
      (∀ r : HttpRequest, r.method = "POST" → r.body = .ok "" →
        shortenURLHandler svc st now r =
          (st, { status := 400,
                 body := .text "URL field is missing or empty in request body" })) ∧
      (∀ (r : HttpRequest) (u : String) (st2 : σ) (e : GoError),
        r.method = "POST" → r.body = .ok u → u ≠ "" →
        svc.createShortURL st now u = (st2, .error e) →
        (errIs e ErrHashCollision = true →
          shortenURLHandler svc st now r =
            (st2, { status := 409,
                    body := .text "Failed to create short URL due to a hash collision. Please try again or modify the URL slightly." })) ∧
        (errIs e ErrHashCollision = false →
          (strContains (errMsg e) "duplicate" || strContains (errMsg e) "already exists") = true →
          shortenURLHandler svc st now r =
            (st2, { status := 409,
                    body := .text "This URL may have already been shortened or a conflict occurred." })) ∧
        (errIs e ErrHashCollision = false →
          (strContains (errMsg e) "duplicate" || strContains (errMsg e) "already exists") = false →
          shortenURLHandler svc st now r =
            (st2, { status := 500, body := .text "Failed to create short URL" }))) := by
  intro σ svc st now
  refine ⟨?_, ?_, ?_, ?_⟩
  · intro r hm
    obtain ⟨m, p, host, tls, body⟩ := r
    simp [shortenURLHandler, hm]
  · intro r m hm hb
    obtain ⟨m0, p, host, tls, body⟩ := r
    subst hm; subst hb
    simp [shortenURLHandler]
  · intro r hm hb
    obtain ⟨m0, p, host, tls, body⟩ := r
    subst hm; subst hb
    simp [shortenURLHandler]
  · intro r u st2 e hm hb hu hsvc
    obtain ⟨m0, p, host, tls, body⟩ := r
    subst hm; subst hb
    refine ⟨?_, ?_, ?_⟩
    · intro hcoll
      simp [shortenURLHandler, hu, hsvc, hcoll]
    · intro hncoll hdup
      simp [shortenURLHandler, hu, hsvc, hncoll, hdup]
    · intro hncoll hdup
      simp [shortenURLHandler, hu, hsvc, hncoll, hdup]

theorem claim_C6_witness :
    shortenURLHandler
        (⟨fun s _ _ => (s, .error (.base "boom")),
          fun _ _ => .error (.base "boom")⟩ : UrlServiceIface Unit) () 0
        ⟨"GET", "/shorten", "h", false, .ok "x"⟩ =
      ((), { status := 405, body := .text "Only POST method is allowed" }) ∧
    shortenURLHandler
        (⟨fun s _ _ => (s, .error (.base "boom")),
          fun _ _ => .error (.base "boom")⟩ : UrlServiceIface Unit) () 0
        ⟨"POST", "/shorten", "h", false, .error "bad json"⟩ =
      ((), { status := 400, body := .text "Invalid request body: bad json" }) ∧
    shortenURLHandler
        (⟨fun s _ _ => (s, .error (.base "boom")),
          fun _ _ => .error (.base "boom")⟩ : UrlServiceIface Unit) () 0
        ⟨"POST", "/shorten", "h", false, .ok ""⟩ =
      ((), { status := 400, body := .text "URL field is missing or empty in request body" }) ∧
    shortenURLHandler
        (⟨fun s _ _ => (s, .error (.wrap "" ErrHashCollision "x")),
          fun _ _ => .error (.base "boom")⟩ : UrlServiceIface Unit) () 0
        ⟨"POST", "/shorten", "h", false, .ok "u1"⟩ =
      ((), { status := 409,
             body := .text "Failed to create short URL due to a hash collision. Please try again or modify the URL slightly." }) ∧
    shortenURLHandler
        (⟨fun s _ _ => (s, .error (.base "it already exists somewhere")),
          fun _ _ => .error (.base "boom")⟩ : UrlServiceIface Unit) () 0
        ⟨"POST", "/shorten", "h", false, .ok "u1"⟩ =
      ((), { status := 409,
             body := .text "This URL may have already been shortened or a conflict occurred." }) ∧
    shortenURLHandler
        (⟨fun s _ _ => (s, .error (.base "boom")),
          fun _ _ => .error (.base "boom")⟩ : UrlServiceIface Unit) () 0
        ⟨"POST", "/shorten", "h", false, .ok "u1"⟩ =
      ((), { status := 500, body := .text "Failed to create short URL" }) :=
  ⟨(claim_C6_shorten_status_mapping _ () 0).1 _ (by decide),
   (claim_C6_shorten_status_mapping _ () 0).2.1 _ "bad json" rfl rfl,
   (claim_C6_shorten_status_mapping _ () 0).2.2.1 _ rfl rfl,
   ((claim_C6_shorten_status_mapping _ () 0).2.2.2 _ "u1" ()
      (.wrap "" ErrHashCollision "x") rfl rfl (by decide) rfl).1 (by decide),
   ((claim_C6_shorten_status_mapping _ () 0).2.2.2 _ "u1" ()
      (.base "it already exists somewhere") rfl rfl (by decide) rfl).2.1
      (by decide) (by decide),
   ((claim_C6_shorten_status_mapping _ () 0).2.2.2 _ "u1" ()
      (.base "boom") rfl rfl (by decide) rfl).2.2 (by decide) (by decide)⟩

/-- C7: redirect contract for GET /r/ paths — an empty suffix gives 400; a
lookup miss gives 404 naming the missing id; a hit gives 302 whose Location
is the stored URL, with "http://" prepended when it carries neither scheme. -/
theorem claim_C7_redirect :
    (∀ (store : List URL) (host : String) (tls : Bool) (body : Except String String),
      redirectURLHandler urlService store ⟨"GET", "/r/", host, tls, body⟩ =
        { status := 400, body := .text "Short URL ID is missing in the path" }) ∧
    (∀ (store : List URL) (id host : String) (tls : Bool) (body : Except String String),
      id ≠ "" → store.find? (fun x => x.id == id) = none →
      redirectURLHandler urlService store ⟨"GET", "/r/" ++ id, host, tls, body⟩ =
        { status := 404, body := .text ("Short URL '" ++ id ++ "' not found") }) ∧
    (∀ (store : List URL) (id host : String) (tls : Bool) (body : Except String String)
      (rec : URL),
      id ≠ "" → store.find? (fun x => x.id == id) = some rec →
      redirectURLHandler urlService store ⟨"GET", "/r/" ++ id, host, tls, body⟩ =
        { status := 302, location := some (
          if !(strStartsWith rec.originalUrl "http://")
              && !(strStartsWith rec.originalUrl "https://")
          then "http://" ++ rec.originalUrl else rec.originalUrl) }) := by
  refine ⟨?_, ?_, ?_⟩
  · intro store host tls body
    have h0 : strTrimHead "/r/" "/r/" = "" := by decide
    simp [redirectURLHandler, h0]
  · intro store id host tls body hid hfind
    have htrim := strTrimHead_append id
    have hget : GetOriginalURL store id =
        .error (.wrap ("URL with ID '" ++ id ++ "' not found: ") errNoDocuments "") := by
      simp only [GetOriginalURL]
      rw [if_neg (by simp [hid])]
      unfold GetByShortID
      rw [hfind]
    have hnf : strContains (errMsg (.wrap ("URL with ID '" ++ id ++ "' not found: ")
        errNoDocuments "")) "not found" = true := by
      simp only [errMsg, errNoDocuments, strContains, String.data_append, List.append_assoc]
      apply charsContain_right
      apply charsContain_right
      apply charsContain_left
      decide
    simp [redirectURLHandler, urlService, htrim, hid, hget, hnf]
  · intro store id host tls body rec hid hfind
    have htrim := strTrimHead_append id
    have hget : GetOriginalURL store id = .ok rec.originalUrl := by
      simp only [GetOriginalURL]
      rw [if_neg (by simp [hid])]
      unfold GetByShortID
      rw [hfind]
    simp [redirectURLHandler, urlService, htrim, hid, hget]

theorem claim_C7_witness :
    redirectURLHandler urlService [] ⟨"GET", "/r/", "h", false, .ok ""⟩ =
      { status := 400, body := .text "Short URL ID is missing in the path" } ∧
    redirectURLHandler urlService [] ⟨"GET", "/r/deadbeef", "h", false, .ok ""⟩ =
      { status := 404, body := .text "Short URL 'deadbeef' not found" } ∧
    redirectURLHandler urlService [⟨"aaaa", "www.x.com", "aaaa", 0⟩]
        ⟨"GET", "/r/aaaa", "h", false, .ok ""⟩ =
      { status := 302, location := some "http://www.x.com" } :=
  ⟨claim_C7_redirect.1 [] "h" false (.ok ""),
   claim_C7_redirect.2.1 [] "deadbeef" "h" false (.ok "") (by decide) rfl,
   claim_C7_redirect.2.2 [⟨"aaaa", "www.x.com", "aaaa", 0⟩] "aaaa" "h" false (.ok "")
     ⟨"aaaa", "www.x.com", "aaaa", 0⟩ (by decide) (by decide)⟩
